import Mathlib

/-!
Shallow embedding of the credential-lifecycle and request-gating subsystem
of the Orbitr backend (`backend/api_key_management.py`,
`backend/security_middleware.py`, `backend/security_config.py`).

Modelling conventions:
* `time.time()` / `datetime.now()` are modelled by an explicit `now : Int`
  argument (Unix seconds).
* The PBKDF2 secret-hashing function `_hash_key` is modelled by an explicit
  function parameter `h : String → String`; the claims only use that hashing
  is deterministic, plus freshness / collision-freedom hypotheses stated
  explicitly where needed.
* Randomness (`secrets.token_urlsafe`) is determinized: freshly drawn
  secrets and ids are explicit arguments.
* The in-memory key dict `self.keys` is an insertion-ordered association
  list `KeyStore`, matching Python dict iteration order.
* `save_keys` performing file I/O may raise; each operation that calls it
  takes a `saveOk : Bool` flag and returns `Except PersistErr _`: when
  `saveOk = false` the save raises and, exactly as in the source (which has
  no try/except around `save_keys`), the exception propagates.
* `security_logger.log_security_event` calls are modelled by an emitted
  event list.
-/

/-- Security events emitted by the key manager (payloads of
`security_logger.log_security_event` in `api_key_management.py`). -/
inductive SecEvent where
  | api_key_generated (key_id : String)
  | api_key_expired_used (key_id : String)
  | api_key_revoked (key_id : String)
  | api_key_rotated (old_key_id new_key_id : String)
  | api_key_load_error (err : String)
deriving Repr, DecidableEq

/-- The exception raised when a persistence step (`save_keys`) fails. -/
inductive PersistErr where
  | saveFailed
deriving Repr, DecidableEq

/-- `APIKey` dataclass from `api_key_management.py` (all nine fields;
`int` fields are modelled as `Int`). -/
structure APIKey where
  key_id : String
  key_hash : String
  created_at : Int
  expires_at : Option Int := none
  last_used : Option Int := none
  usage_count : Int := 0
  is_active : Bool := true
  permissions : List String := ["generate", "cache", "health"]
  name : Option String := none
deriving Repr, DecidableEq

/-- `APIKey.is_expired`: `time.time() > self.expires_at` when an expiry is
set, else never expired. -/
def APIKey.is_expired (k : APIKey) (now : Int) : Bool :=
  match k.expires_at with
  | none => false
  | some e => decide (now > e)

/-- `APIKey.is_valid`: active and not expired. -/
def APIKey.is_valid (k : APIKey) (now : Int) : Bool :=
  k.is_active && !(k.is_expired now)

/-- `APIKey.update_usage`: set `last_used` to now, bump `usage_count`. -/
def APIKey.update_usage (k : APIKey) (now : Int) : APIKey :=
  { k with last_used := some now, usage_count := k.usage_count + 1 }

/-- The key manager's `self.keys` dict as an insertion-ordered association
list. -/
abbrev KeyStore := List (String × APIKey)

/-- Association-list lookup (Python `d[k]` / `k in d`). -/
def alistGet? {β : Type} (xs : List (String × β)) (k : String) : Option β :=
  (xs.find? (fun p => p.fst == k)).map (fun p => p.snd)

/-- Association-list assignment `d[k] = v`: replace in place when the key is
present (Python dicts keep the original insertion position), else append. -/
def alistSet {β : Type} (xs : List (String × β)) (k : String) (v : β) :
    List (String × β) :=
  if xs.any (fun p => p.fst == k) then
    xs.map (fun p => if p.fst == k then (k, v) else p)
  else
    xs ++ [(k, v)]

/-- Association-list deletion `del d[k]`. -/
def alistRemove {β : Type} (xs : List (String × β)) (k : String) :
    List (String × β) :=
  xs.filter (fun p => p.fst != k)

/-- `validate_api_key`: derive the candidate hash, scan the stored records in
insertion order and act on the FIRST hash match: if valid, update usage,
persist (the save may raise) and return the record; if invalid, emit an
`api_key_expired_used` event when the match is expired, and return `none`;
with no match return `none`. -/
def validate_api_key (now : Int) (saveOk : Bool) (h : String → String)
    (ks : KeyStore) (api_key : String) :
    Except PersistErr (Option APIKey × KeyStore × List SecEvent) :=
  let key_hash := h api_key
  match ks.find? (fun p => p.snd.key_hash == key_hash) with
  | some (i, k) =>
    if k.is_valid now then
      let k' := k.update_usage now
      let ks' := alistSet ks i k'
      if saveOk then .ok (some k', ks', []) else .error .saveFailed
    else
      if k.is_expired now then
        .ok (none, ks, [SecEvent.api_key_expired_used k.key_id])
      else
        .ok (none, ks, [])
  | none => .ok (none, ks, [])

/-- `generate_api_key`: build the record and store it. Python truthiness is
preserved: `if expires_in_days:` treats `0` as no expiry, and
`permissions or [...]` replaces an empty permission list by the defaults.
The freshly drawn secret and id are explicit arguments. -/
def generate_api_key (now : Int) (saveOk : Bool) (h : String → String)
    (freshSecret freshId : String) (name : Option String)
    (expires_in_days : Option Int) (permissions : Option (List String))
    (ks : KeyStore) :
    Except PersistErr ((String × String) × KeyStore × List SecEvent) :=
  let expires_at : Option Int :=
    match expires_in_days with
    | some d => if d == 0 then none else some (now + d * 24 * 3600)
    | none => none
  let perms : List String :=
    match permissions with
    | some ps => if ps.isEmpty then ["generate", "cache", "health"] else ps
    | none => ["generate", "cache", "health"]
  let key_obj : APIKey :=
    { key_id := freshId
      key_hash := h freshSecret
      created_at := now
      expires_at := expires_at
      last_used := none
      usage_count := 0
      is_active := true
      permissions := perms
      name := name }
  let ks' := alistSet ks freshId key_obj
  if saveOk then
    .ok ((freshId, freshSecret), ks', [SecEvent.api_key_generated freshId])
  else
    .error .saveFailed

/-- `revoke_api_key`: when the id is known, clear `is_active`, persist, emit
the event and return `true`; on an unknown id return `false` unchanged. -/
def revoke_api_key (saveOk : Bool) (ks : KeyStore) (key_id : String) :
    Except PersistErr (Bool × KeyStore × List SecEvent) :=
  match alistGet? ks key_id with
  | some k =>
    let ks' := alistSet ks key_id { k with is_active := false }
    if saveOk then
      .ok (true, ks', [SecEvent.api_key_revoked key_id])
    else
      .error .saveFailed
  | none => .ok (false, ks, [])

/-- `rotate_api_key`: unknown id returns `none`; otherwise issue a new key
carrying the old key's permissions and the old name suffixed with
`"_rotated"` (Python truthiness: an absent or empty old name yields `None`),
then set the old record's expiry to now + 24h and persist again. -/
def rotate_api_key (now : Int) (saveOk : Bool) (h : String → String)
    (freshSecret freshId : String) (ks : KeyStore) (key_id : String)
    (expires_in_days : Option Int) :
    Except PersistErr (Option (String × String) × KeyStore × List SecEvent) :=
  match alistGet? ks key_id with
  | none => .ok (none, ks, [])
  | some old_key =>
    let newName : Option String :=
      match old_key.name with
      | some n => if n.isEmpty then none else some (n ++ "_rotated")
      | none => none
    match generate_api_key now saveOk h freshSecret freshId newName
        expires_in_days (some old_key.permissions) ks with
    | .error e => .error e
    | .ok ((new_key_id, new_api_key), ks', evs) =>
      let ks'' := alistSet ks' key_id
        { old_key with expires_at := some (now + 24 * 3600) }
      if saveOk then
        .ok (some (new_key_id, new_api_key), ks'',
          evs ++ [SecEvent.api_key_rotated key_id new_key_id])
      else
        .error .saveFailed

/-- `validate_api_key_with_permissions`: validate the credential, then return
the record only when the required permission is among the record's
permissions; in every other case return `none`. Note that this function
touches no abuse-tracking state and records no authentication failure. -/
def validate_api_key_with_permissions (now : Int) (saveOk : Bool)
    (h : String → String) (ks : KeyStore) (api_key : String)
    (required_permission : String) :
    Except PersistErr (Option APIKey × KeyStore × List SecEvent) :=
  match validate_api_key now saveOk h ks api_key with
  | .error e => .error e
  | .ok (some k, ks', evs) =>
    if required_permission ∈ k.permissions then .ok (some k, ks', evs)
    else .ok (none, ks', evs)
  | .ok (none, ks', evs) => .ok (none, ks', evs)

/-- `get_api_key_for_legacy_support`: when some stored key is named
"default" and currently valid, return a freshly drawn random token (the
real secret is not recoverable); otherwise issue a fresh "default" key with
a 365-day expiry and return its genuine secret. -/
def get_api_key_for_legacy_support (now : Int) (saveOk : Bool)
    (h : String → String) (freshToken freshSecret freshId : String)
    (ks : KeyStore) :
    Except PersistErr (String × KeyStore × List SecEvent) :=
  if ks.any (fun p => p.snd.name == some "default" && p.snd.is_valid now) then
    .ok (freshToken, ks, [])
  else
    match generate_api_key now saveOk h freshSecret freshId (some "default")
        (some 365) (some ["generate", "cache", "health"]) ks with
    | .error e => .error e
    | .ok ((_, api_key), ks', evs) => .ok (api_key, ks', evs)

/-! ### Encrypted key store: `save_keys` / `load_keys`

`save_keys` serializes the key dict with `asdict` + `json.dumps` and writes
the Fernet-encrypted bytes; `load_keys` decrypts, parses and rebuilds the
`APIKey` objects. Fernet decryption is the exact inverse of encryption, so
the persisted artifact is modelled as the parsed JSON value itself; a file
that is missing, undecryptable or unparsable is modelled by `StoredFile`'s
other cases. -/

/-- JSON values as produced by `json.dumps(asdict(...))` for this data
model. -/
inductive JVal where
  | jnull
  | jbool (b : Bool)
  | jint (n : Int)
  | jstr (s : String)
  | jarr (xs : List JVal)
deriving Repr

/-- One serialized `APIKey`: the `asdict` field dictionary, in dataclass
field order. -/
abbrev JFields := List (String × JVal)

/-- Serialized whole store: id ↦ field dictionary. -/
abbrev JStore := List (String × JFields)

/-- Encode an optional integer field. -/
def encodeOptInt : Option Int → JVal
  | none => .jnull
  | some n => .jint n

/-- `asdict` applied to one `APIKey`. -/
def encodeKey (k : APIKey) : JFields :=
  [("key_id", .jstr k.key_id),
   ("key_hash", .jstr k.key_hash),
   ("created_at", .jint k.created_at),
   ("expires_at", encodeOptInt k.expires_at),
   ("last_used", encodeOptInt k.last_used),
   ("usage_count", .jint k.usage_count),
   ("is_active", .jbool k.is_active),
   ("permissions", .jarr (k.permissions.map JVal.jstr)),
   ("name", match k.name with | none => JVal.jnull | some s => JVal.jstr s)]

/-- `save_keys` without the I/O layer: the serialized mapping that is
encrypted and written to the key file. -/
def save_keysData (ks : KeyStore) : JStore :=
  ks.map (fun p => (p.fst, encodeKey p.snd))

/-- Read a string field. -/
def jAsStr : JVal → Option String
  | .jstr s => some s
  | _ => none

/-- Read an integer field. -/
def jAsInt : JVal → Option Int
  | .jint n => some n
  | _ => none

/-- Read an optional-integer field (`null` or an int). -/
def jAsOptInt : JVal → Option (Option Int)
  | .jnull => some none
  | .jint n => some (some n)
  | _ => none

/-- Read a boolean field. -/
def jAsBool : JVal → Option Bool
  | .jbool b => some b
  | _ => none

/-- Parse each element of a JSON array as a string. -/
def jAsStrs : List JVal → Option (List String)
  | [] => some []
  | v :: vs =>
    match jAsStr v with
    | some s => (jAsStrs vs).map (fun ss => s :: ss)
    | none => none

/-- Read a list-of-strings field. -/
def jAsStrList : JVal → Option (List String)
  | .jarr xs => jAsStrs xs
  | _ => none

/-- Field lookup in a serialized record. -/
def jField (fs : JFields) (k : String) : Option JVal :=
  (fs.find? (fun p => p.fst == k)).map (fun p => p.snd)

/-- `APIKey(**key_dict)` on a parsed field dictionary, including
`__post_init__` (a `null` permissions field becomes the default list);
any missing or ill-typed field raises, modelled as `none`. -/
def decodeKey (fs : JFields) : Option APIKey := do
  let key_id ← (jField fs "key_id").bind jAsStr
  let key_hash ← (jField fs "key_hash").bind jAsStr
  let created_at ← (jField fs "created_at").bind jAsInt
  let expires_at ← (jField fs "expires_at").bind jAsOptInt
  let last_used ← (jField fs "last_used").bind jAsOptInt
  let usage_count ← (jField fs "usage_count").bind jAsInt
  let is_active ← (jField fs "is_active").bind jAsBool
  let permsField ← jField fs "permissions"
  let permissions ←
    match permsField with
    | .jnull => some ["generate", "cache", "health"]
    | v => jAsStrList v
  let nameField ← jField fs "name"
  let name ←
    match nameField with
    | .jnull => some (none : Option String)
    | .jstr s => some (some s)
    | _ => none
  pure
    { key_id := key_id
      key_hash := key_hash
      created_at := created_at
      expires_at := expires_at
      last_used := last_used
      usage_count := usage_count
      is_active := is_active
      permissions := permissions
      name := name }

/-- Rebuild the whole key dict from the parsed file; any entry that fails to
decode raises, which the caller catches. -/
def decodeStore : JStore → Option KeyStore
  | [] => some []
  | (i, fs) :: rest =>
    match decodeKey fs with
    | some k => (decodeStore rest).map (fun ks => (i, k) :: ks)
    | none => none

/-- The on-disk key file as `load_keys` sees it: absent, readable (already
decrypted and parsed), or corrupt/undecryptable (decryption or JSON parsing
raises with some error message). -/
inductive StoredFile where
  | missing
  | blob (data : JStore)
  | corrupt (err : String)

/-- `load_keys`: a missing file returns early leaving the current dict
untouched (empty at construction); otherwise decrypt and rebuild; any
exception along the way is caught, an `api_key_load_error` event is emitted
and the dict is reset to empty. The function is total: no exception
propagates to the caller. -/
def load_keys (prev : KeyStore) (file : StoredFile) :
    KeyStore × List SecEvent :=
  match file with
  | .missing => (prev, [])
  | .corrupt e => ([], [SecEvent.api_key_load_error e])
  | .blob data =>
    match decodeStore data with
    | some ks => (ks, [])
    | none => ([], [SecEvent.api_key_load_error "invalid key data"])

/-! ### Abuse tracker (`SecurityMetrics` in `security_middleware.py`) -/

/-- The lockout-relevant part of `AuthConfig` in `security_config.py`
(defaults: 5 attempts, 900-second lockout). -/
structure AuthConfig where
  max_failed_attempts : Nat := 5
  lockout_duration : Int := 900
deriving Repr, DecidableEq

/-- `SecurityMetrics` state: per-client failed-attempt deques (timestamp and
truncated user agent, `maxlen=100`), the lockout table and the
suspicious-client set. -/
structure SecurityMetrics where
  failed_auth_attempts : List (String × List (Int × String)) := []
  blocked_ips : List (String × Int) := []
  suspicious_ips : List String := []
deriving Repr, DecidableEq

/-- `deque(maxlen=100).append`: append and evict from the left beyond 100
entries. -/
def dequePush (xs : List (Int × String)) (x : Int × String) :
    List (Int × String) :=
  let ys := xs ++ [x]
  ys.drop (ys.length - 100)

/-- `SecurityMetrics.record_failed_auth`: a no-op in the test environment;
otherwise append the failure (user agent truncated to 100 characters),
count the failures within the trailing `lockout_duration` window, and when
that count reaches `max_failed_attempts` set the client's lockout expiry to
now + `lockout_duration`. -/
def record_failed_auth (env : String) (cfg : AuthConfig) (now : Int)
    (ip ua : String) (m : SecurityMetrics) : SecurityMetrics :=
  if env == "test" then m
  else
    let attempts :=
      dequePush ((alistGet? m.failed_auth_attempts ip).getD [])
        (now, ua.take 100)
    let m1 := { m with
      failed_auth_attempts := alistSet m.failed_auth_attempts ip attempts }
    let recent :=
      attempts.countP (fun a => decide (now - a.fst < cfg.lockout_duration))
    if cfg.max_failed_attempts ≤ recent then
      { m1 with
        blocked_ips := alistSet m1.blocked_ips ip (now + cfg.lockout_duration) }
    else m1

/-- `SecurityMetrics.is_ip_blocked`: always `false` in the test environment;
otherwise `true` iff the client has a lockout entry strictly in the future,
and an expired entry is passively deleted by the check. -/
def is_ip_blocked (env : String) (now : Int) (ip : String)
    (m : SecurityMetrics) : Bool × SecurityMetrics :=
  if env == "test" then (false, m)
  else
    match alistGet? m.blocked_ips ip with
    | some expiry =>
      if now < expiry then (true, m)
      else (false, { m with blocked_ips := alistRemove m.blocked_ips ip })
    | none => (false, m)

/-! ### Concrete sample data for closed evaluations -/

/-- A concrete stand-in for the key-derivation function, used to evaluate
the definitions on closed inputs (the claims never depend on the internals
of PBKDF2, only on determinism and explicitly stated collision-freedom). -/
def idHash : String → String := fun s => s

/-- A concrete valid key: active, no expiry, default-style permissions. -/
def cKey : APIKey :=
  { key_id := "k1", key_hash := "sek", created_at := 0, expires_at := none,
    last_used := none, usage_count := 0, is_active := true,
    permissions := ["generate", "cache", "health"], name := none }

/-- A one-key store holding `cKey`. -/
def cStore : KeyStore := [("k1", cKey)]

/-- A concrete named active key used to exercise rotation. -/
def cOld : APIKey :=
  { key_id := "k1", key_hash := "s1", created_at := 0, expires_at := none,
    last_used := none, usage_count := 0, is_active := true,
    permissions := ["generate"], name := some "default" }

/-! ### Helper lemmas on association lists and `find?` -/

/-- `find?` over a decomposed list: when nothing in the prefix matches and
the middle element does, `find?` returns the middle element. -/
theorem find?_middle {α : Type} (p : α → Bool) (pre post : List α) (x : α)
    (hpre : ∀ a ∈ pre, p a = false) (hx : p x = true) :
    (pre ++ x :: post).find? p = some x := by
  induction pre with
  | nil => simp [List.find?, hx]
  | cons y ys ih =>
    have hy : p y = false := hpre y (List.mem_cons_self _ _)
    simp only [List.cons_append, List.find?, hy]
    exact ih (fun a ha => hpre a (List.mem_cons_of_mem _ ha))

/-- `find?` returns `none` when every element fails the test. -/
theorem find?_none {α : Type} (p : α → Bool) (l : List α)
    (h : ∀ a ∈ l, p a = false) : l.find? p = none := by
  induction l with
  | nil => rfl
  | cons y ys ih =>
    have hy : p y = false := h y (List.mem_cons_self _ _)
    simp only [List.find?, hy]
    exact ih (fun a ha => h a (List.mem_cons_of_mem _ ha))

/-- Mapping a function that fixes every element is the identity. -/
theorem map_eq_self_of {α : Type} (f : α → α) (l : List α)
    (h : ∀ a ∈ l, f a = a) : l.map f = l := by
  induction l with
  | nil => rfl
  | cons y ys ih =>
    simp only [List.map_cons, h y (List.mem_cons_self _ _)]
    rw [ih (fun a ha => h a (List.mem_cons_of_mem _ ha))]

/-- `alistSet` on an absent key appends the binding. -/
theorem alistSet_append {β : Type} (xs : List (String × β)) (k : String)
    (v : β) (hk : ∀ p ∈ xs, (p.fst == k) = false) :
    alistSet xs k v = xs ++ [(k, v)] := by
  have hany : xs.any (fun p => p.fst == k) = false := by
    rw [List.any_eq_false]
    intro p hp
    simp [hk p hp]
  simp [alistSet, hany]

/-- `alistSet` on a decomposed list with a unique middle key rewrites the
middle binding in place. -/
theorem alistSet_middle {β : Type} (pre post : List (String × β))
    (k : String) (w v : β)
    (hpre : ∀ p ∈ pre, (p.fst == k) = false)
    (hpost : ∀ p ∈ post, (p.fst == k) = false) :
    alistSet (pre ++ (k, w) :: post) k v = pre ++ (k, v) :: post := by
  have hany : (pre ++ (k, w) :: post).any (fun p => p.fst == k) = true := by
    rw [List.any_eq_true]
    exact ⟨(k, w), by simp, by simp⟩
  simp only [alistSet, hany, if_true, List.map_append, List.map_cons]
  rw [map_eq_self_of _ pre (fun p hp => by simp [hpre p hp]),
    map_eq_self_of _ post (fun p hp => by simp [hpost p hp])]
  simp

/-- Lookup of a decomposed association list with a clean prefix returns the
middle binding. -/
theorem alistGet?_middle {β : Type} (pre post : List (String × β))
    (k : String) (v : β) (hpre : ∀ p ∈ pre, (p.fst == k) = false) :
    alistGet? (pre ++ (k, v) :: post) k = some v := by
  unfold alistGet?
  rw [find?_middle _ pre post (k, v) hpre (by simp)]
  rfl

/-- Lookup after deleting a key misses. -/
theorem alistGet?_remove_self {β : Type} (xs : List (String × β))
    (k : String) : alistGet? (alistRemove xs k) k = none := by
  unfold alistGet? alistRemove
  rw [find?_none]
  · rfl
  · intro p hp
    have hmem := List.of_mem_filter hp
    simp only [bne_iff_ne, ne_eq] at hmem
    simp [hmem]

/-- `find?` of the written key over the in-place rewrite performed by
`alistSet` on a present key. -/
theorem find?_set_map {β : Type} (xs : List (String × β)) (k : String)
    (v : β) :
    ((xs.map (fun p => if p.fst == k then (k, v) else p)).find?
        (fun p => p.fst == k)) =
      (if xs.any (fun p => p.fst == k) then some (k, v) else none) := by
  induction xs with
  | nil => rfl
  | cons x xs ih =>
    cases hx : (x.fst == k) with
    | true => simp [List.find?, hx]
    | false =>
      have hx' : ¬(x.fst == k) = true := by simp [hx]
      rw [List.map_cons, if_neg hx']
      simp only [List.find?_cons, hx, List.any_cons, Bool.false_or]
      exact ih

/-- Writing a binding makes it visible to lookup. -/
theorem alistGet?_set_self {β : Type} (xs : List (String × β)) (k : String)
    (v : β) : alistGet? (alistSet xs k v) k = some v := by
  unfold alistSet alistGet?
  cases hany : xs.any (fun p => p.fst == k) with
  | true =>
    simp only [hany, if_true]
    rw [find?_set_map xs k v, hany]
    rfl
  | false =>
    simp only [hany, Bool.false_eq_true, if_false]
    rw [find?_middle _ xs [] (k, v) ?_ (by simp)]
    · rfl
    · intro p hp
      cases hc : (p.fst == k) with
      | false => rfl
      | true =>
        rw [List.any_eq_false] at hany
        exact absurd hc (by simpa using hany p hp)

/-! ### Serialization round-trip lemmas -/

/-- String-array encoding parses back to the original list. -/
theorem jAsStrs_map_jstr (ps : List String) :
    jAsStrs (ps.map JVal.jstr) = some ps := by
  induction ps with
  | nil => rfl
  | cons p ps ih => simp [jAsStrs, jAsStr, ih]

/-- One serialized record decodes back to the original record. -/
theorem decodeKey_encodeKey (k : APIKey) : decodeKey (encodeKey k) = some k := by
  obtain ⟨kid, khash, cat, exp, lu, uc, act, perms, nm⟩ := k
  cases exp <;> cases lu <;> cases nm <;>
    simp [decodeKey, encodeKey, jField, jAsStr, jAsInt, jAsOptInt, jAsBool,
      jAsStrList, jAsStrs_map_jstr, encodeOptInt, List.find?]

/-- The serialized store decodes back to the original store. -/
theorem decodeStore_save (ks : KeyStore) :
    decodeStore (save_keysData ks) = some ks := by
  induction ks with
  | nil => rfl
  | cons p rest ih =>
    obtain ⟨i, k⟩ := p
    have ih' : decodeStore (rest.map (fun p => (p.fst, encodeKey p.snd)))
        = some rest := ih
    simp [save_keysData, decodeStore, decodeKey_encodeKey, ih']

/-! ### Claim theorems -/

/-- C5: `load()` on a missing key file returns the empty mapping (the dict
is empty at construction and the early return leaves it untouched), and
`load()` on a corrupt or undecryptable key file returns the empty mapping
and emits an `api_key_load_error` event; `load_keys` is a total function,
so no exception propagates to the caller in either case. -/
theorem C5_load_missing_and_corrupt :
    load_keys [] StoredFile.missing = ([], []) ∧
    (∀ (prev : KeyStore) (e : String),
      load_keys prev (StoredFile.corrupt e) =
        ([], [SecEvent.api_key_load_error e])) ∧
    (∀ (prev : KeyStore) (data : JStore), decodeStore data = none →
      load_keys prev (StoredFile.blob data) =
        ([], [SecEvent.api_key_load_error "invalid key data"])) := by
  refine ⟨rfl, fun _ _ => rfl, fun prev data hbad => ?_⟩
  simp [load_keys, hbad]

/-- C5 witness: the three branches at concrete inputs (the ill-formed blob
has a record missing every field). -/
theorem C5_load_missing_and_corrupt_witness :
    load_keys [] StoredFile.missing = ([], []) ∧
    load_keys cStore (StoredFile.corrupt "bad token") =
      ([], [SecEvent.api_key_load_error "bad token"]) ∧
    load_keys cStore (StoredFile.blob [("k1", [])]) =
      ([], [SecEvent.api_key_load_error "invalid key data"]) := by
  refine ⟨C5_load_missing_and_corrupt.1,
    C5_load_missing_and_corrupt.2.1 cStore "bad token",
    C5_load_missing_and_corrupt.2.2 cStore [("k1", [])] (by rfl)⟩

/-- C8: saving a populated key mapping and loading it back through the
encrypted store reproduces the mapping exactly — same ids, and for each id
a record with identical field values (hash, timestamps, usage count, active
flag, permissions, label). -/
theorem C8_save_load_roundtrip :
    ∀ (prev ks : KeyStore),
      load_keys prev (StoredFile.blob (save_keysData ks)) = (ks, []) := by
  intro prev ks
  simp [load_keys, decodeStore_save]

/-- C4 counterexample: a concrete valid key in a one-key store; when the
save inside `validate_api_key` fails, validation does not return the
matching record — the persistence error propagates (the source has no
try/except around `save_keys` on the validation path), refuting the claim
that the validation still succeeds for this request. -/
theorem C4_counterexample :
    validate_api_key 100 false idHash cStore "sek"
        = .error PersistErr.saveFailed ∧
    cKey.is_valid 100 = true := by
  exact ⟨rfl, rfl⟩

/-- C4 amended: whenever the credential matches a valid stored key and the
persistence step of the usage-count update fails, `validate_api_key`
propagates the persistence error to the caller instead of returning the
record; nothing is logged by the validation path in that case. -/
theorem C4_save_failure_propagates (now : Int) (h : String → String)
    (ks : KeyStore) (secret i : String) (k : APIKey)
    (hfind : ks.find? (fun p => p.snd.key_hash == h secret) = some (i, k))
    (hvalid : k.is_valid now = true) :
    validate_api_key now false h ks secret = .error PersistErr.saveFailed := by
  simp [validate_api_key, hfind, hvalid]

/-- C4 amended witness: the general theorem applied at the concrete store. -/
theorem C4_save_failure_propagates_witness :
    validate_api_key 100 false idHash cStore "sek"
        = .error PersistErr.saveFailed := by
  exact C4_save_failure_propagates 100 idHash cStore "sek" "k1" cKey rfl rfl

/-- Issuance with a fresh id appends the new record; the record's fields
follow the construction in `generate_api_key`. -/
theorem generate_api_key_spec (now : Int) (h : String → String)
    (freshSecret freshId : String) (nm : Option String) (d : Option Int)
    (perms : Option (List String)) (ks : KeyStore)
    (hfresh : ∀ p ∈ ks, (p.fst == freshId) = false) :
    ∃ k : APIKey,
      generate_api_key now true h freshSecret freshId nm d perms ks =
        .ok ((freshId, freshSecret), ks ++ [(freshId, k)],
          [SecEvent.api_key_generated freshId]) ∧
      k.key_id = freshId ∧ k.key_hash = h freshSecret ∧
      k.created_at = now ∧ k.last_used = none ∧ k.usage_count = 0 ∧
      k.is_active = true ∧ k.name = nm ∧
      k.expires_at = (match d with
        | some dd => if dd == 0 then none else some (now + dd * 24 * 3600)
        | none => none) ∧
      k.permissions = (match perms with
        | some ps => if ps.isEmpty then ["generate", "cache", "health"] else ps
        | none => ["generate", "cache", "health"]) := by
  refine ⟨{ key_id := freshId
            key_hash := h freshSecret
            created_at := now
            expires_at := match d with
              | some dd => if dd == 0 then none else some (now + dd * 24 * 3600)
              | none => none
            last_used := none
            usage_count := 0
            is_active := true
            permissions := match perms with
              | some ps =>
                if ps.isEmpty then ["generate", "cache", "health"] else ps
              | none => ["generate", "cache", "health"]
            name := nm }, ?_, rfl, rfl, rfl, rfl, rfl, rfl, rfl, rfl, rfl⟩
  simp only [generate_api_key, if_true]
  rw [alistSet_append ks freshId _ hfresh]

/-- Validation acts on the first hash match of the scan: the outcome is
decided entirely by that record's validity at the given time and by whether
the save succeeds. -/
theorem validate_first_match (t : Int) (saveOk : Bool) (h : String → String)
    (pre post : KeyStore) (i secret : String) (k : APIKey)
    (hpre : ∀ p ∈ pre, (p.snd.key_hash == h secret) = false)
    (hk : (k.key_hash == h secret) = true) :
    validate_api_key t saveOk h (pre ++ (i, k) :: post) secret =
      (if k.is_valid t then
        (if saveOk then
          Except.ok (some (k.update_usage t),
            alistSet (pre ++ (i, k) :: post) i (k.update_usage t), [])
         else Except.error PersistErr.saveFailed)
       else if k.is_expired t then
        Except.ok (none, pre ++ (i, k) :: post,
          [SecEvent.api_key_expired_used k.key_id])
       else Except.ok (none, pre ++ (i, k) :: post, [])) := by
  simp only [validate_api_key]
  rw [find?_middle _ pre post (i, k) hpre hk]

/-- Validation misses entirely when no stored hash matches. -/
theorem validate_no_match (t : Int) (saveOk : Bool) (h : String → String)
    (ks : KeyStore) (secret : String)
    (hmiss : ∀ p ∈ ks, (p.snd.key_hash == h secret) = false) :
    validate_api_key t saveOk h ks secret = .ok (none, ks, []) := by
  simp only [validate_api_key]
  rw [find?_none _ ks hmiss]

/-- C3: a key issued with a nonzero ttl whose expiry lies strictly in the
past at validation time is rejected by validation: an internal
`api_key_expired_used` event is reported, and the external outcome is
`none` (the generic invalid/not-found answer), not the record. (Note that a
literal `expires_in_days = 0` is falsy in the source and produces a key
with no expiry, which is why the claim's already-past-expiry reading is
formalized via a nonzero ttl and a later validation time.) -/
theorem C3_expired_key_rejected (now t : Int) (saveOk : Bool)
    (h : String → String) (freshSecret freshId : String) (nm : Option String)
    (d : Int) (perms : Option (List String)) (ks ks₁ : KeyStore)
    (evs : List SecEvent) (r : String × String)
    (hd : (d == 0) = false)
    (hfresh : ∀ p ∈ ks, (p.fst == freshId) = false)
    (hnoclash : ∀ p ∈ ks, (p.snd.key_hash == h freshSecret) = false)
    (hpast : now + d * 24 * 3600 < t)
    (hgen : generate_api_key now true h freshSecret freshId nm (some d)
        perms ks = .ok (r, ks₁, evs)) :
    validate_api_key t saveOk h ks₁ freshSecret =
      .ok (none, ks₁, [SecEvent.api_key_expired_used freshId]) := by
  obtain ⟨k, hgen', hkid, hkhash, -, -, -, -, -, hexp, -⟩ :=
    generate_api_key_spec now h freshSecret freshId nm (some d) perms ks hfresh
  rw [hgen'] at hgen
  simp only [Except.ok.injEq, Prod.mk.injEq] at hgen
  obtain ⟨-, hks, -⟩ := hgen
  subst hks
  have hexpired : k.is_expired t = true := by
    simp only [APIKey.is_expired]
    rw [hexp]
    simp only [hd, Bool.false_eq_true, if_false, decide_eq_true_eq]
    omega
  have hval : k.is_valid t = false := by
    simp [APIKey.is_valid, hexpired]
  rw [validate_first_match t saveOk h ks [] freshId freshSecret k hnoclash
    (by simp [hkhash])]
  simp [hval, hexpired, hkid]

/-- C3 witness: issue at time 0 with a one-day ttl, validate at time
100000 (past the 86400-second expiry): the expired event is reported and
the outcome is `none`. -/
theorem C3_expired_key_rejected_witness :
    validate_api_key 100000 true idHash
        [("kid1", { key_id := "kid1", key_hash := "s", created_at := 0,
                    expires_at := some 86400, last_used := none,
                    usage_count := 0, is_active := true,
                    permissions := ["generate", "cache", "health"],
                    name := none })] "s" =
      .ok (none,
        [("kid1", { key_id := "kid1", key_hash := "s", created_at := 0,
                    expires_at := some 86400, last_used := none,
                    usage_count := 0, is_active := true,
                    permissions := ["generate", "cache", "health"],
                    name := none })],
        [SecEvent.api_key_expired_used "kid1"]) := by
  exact C3_expired_key_rejected 0 100000 true idHash "s" "kid1" none 1 none
    [] _ _ _ (by decide) (by simp) (by simp) (by omega) rfl

/-- C7: validating the returned plaintext secret immediately after issuance
(same clock instant, fresh secret and id, nonnegative ttl if any) returns
the matching record, whose usage count is the pre-validation count (0 for a
newly issued key) incremented by exactly one. -/
theorem C7_validate_after_issue (now : Int) (h : String → String)
    (freshSecret freshId : String) (nm : Option String) (d : Option Int)
    (perms : Option (List String)) (ks ks₁ : KeyStore) (evs : List SecEvent)
    (r : String × String) (k : APIKey)
    (hfresh : ∀ p ∈ ks, (p.fst == freshId) = false)
    (hnoclash : ∀ p ∈ ks, (p.snd.key_hash == h freshSecret) = false)
    (hd : ∀ dd, d = some dd → 0 ≤ dd)
    (hgen : generate_api_key now true h freshSecret freshId nm d perms ks
        = .ok (r, ks₁, evs))
    (hlook : alistGet? ks₁ freshId = some k) :
    k.usage_count = 0 ∧
    validate_api_key now true h ks₁ freshSecret =
      .ok (some (k.update_usage now),
        alistSet ks₁ freshId (k.update_usage now), []) ∧
    (k.update_usage now).usage_count = k.usage_count + 1 ∧
    (k.update_usage now).usage_count = 1 := by
  obtain ⟨knew, hgen', hkid, hkh, -, -, huse, hact, -, hexp, -⟩ :=
    generate_api_key_spec now h freshSecret freshId nm d perms ks hfresh
  rw [hgen'] at hgen
  simp only [Except.ok.injEq, Prod.mk.injEq] at hgen
  obtain ⟨-, hks, -⟩ := hgen
  subst hks
  rw [alistGet?_middle ks [] freshId knew hfresh] at hlook
  have hkeq : k = knew := by
    cases hlook
    rfl
  subst hkeq
  have hnexp : k.is_expired now = false := by
    simp only [APIKey.is_expired]
    rw [hexp]
    cases d with
    | none => rfl
    | some dd =>
      have hdd := hd dd rfl
      cases hz : (dd == 0) with
      | true => simp [hz]
      | false =>
        simp only [hz, Bool.false_eq_true, if_false, decide_eq_false_iff_not]
        omega
  have hvalid : k.is_valid now = true := by
    simp [APIKey.is_valid, hact, hnexp]
  refine ⟨huse, ?_, rfl, ?_⟩
  · rw [validate_first_match now true h ks [] freshId freshSecret k hnoclash
      (by simp [hkh])]
    simp [hvalid]
  · simp [APIKey.update_usage, huse]

/-- C7 witness: a key issued at time 5 with no ttl into an empty store;
validating its secret at the same instant returns the record with usage
count 1. -/
theorem C7_validate_after_issue_witness :
    ({ key_id := "id7", key_hash := "sec7", created_at := 5,
       expires_at := none, last_used := none, usage_count := 0,
       is_active := true, permissions := ["generate", "cache", "health"],
       name := none } : APIKey).usage_count = 0 ∧
    validate_api_key 5 true idHash
        [("id7", { key_id := "id7", key_hash := "sec7", created_at := 5,
                   expires_at := none, last_used := none, usage_count := 0,
                   is_active := true,
                   permissions := ["generate", "cache", "health"],
                   name := none })] "sec7" =
      .ok (some (APIKey.update_usage
          { key_id := "id7", key_hash := "sec7", created_at := 5,
            expires_at := none, last_used := none, usage_count := 0,
            is_active := true,
            permissions := ["generate", "cache", "health"],
            name := none } 5),
        alistSet
          [("id7", { key_id := "id7", key_hash := "sec7", created_at := 5,
                     expires_at := none, last_used := none, usage_count := 0,
                     is_active := true,
                     permissions := ["generate", "cache", "health"],
                     name := none })] "id7"
          (APIKey.update_usage
            { key_id := "id7", key_hash := "sec7", created_at := 5,
              expires_at := none, last_used := none, usage_count := 0,
              is_active := true,
              permissions := ["generate", "cache", "health"],
              name := none } 5), []) ∧
    (APIKey.update_usage
        { key_id := "id7", key_hash := "sec7", created_at := 5,
          expires_at := none, last_used := none, usage_count := 0,
          is_active := true, permissions := ["generate", "cache", "health"],
          name := none } 5).usage_count =
      ({ key_id := "id7", key_hash := "sec7", created_at := 5,
         expires_at := none, last_used := none, usage_count := 0,
         is_active := true, permissions := ["generate", "cache", "health"],
         name := none } : APIKey).usage_count + 1 ∧
    (APIKey.update_usage
        { key_id := "id7", key_hash := "sec7", created_at := 5,
          expires_at := none, last_used := none, usage_count := 0,
          is_active := true, permissions := ["generate", "cache", "health"],
          name := none } 5).usage_count = 1 := by
  exact C7_validate_after_issue 5 idHash "sec7" "id7" none none none []
    _ _ _ _ (by simp) (by simp) (by intro dd hdd; cases hdd) rfl rfl

/-- C1: presenting a valid key's secret with a required permission OUTSIDE
the key's permission set is rejected by the permission gate
(`validate_api_key_with_permissions` returns `none`, the forbidden
outcome), while the credential itself is accepted — the underlying
validation succeeds, updates usage, and emits no security event; no
authentication failure is recorded anywhere on this path (the function
never touches the abuse tracker). Presenting the same secret with a
required permission INSIDE the set is admitted: the record is returned. -/
theorem C1_permission_gate (now : Int) (h : String → String)
    (ks : KeyStore) (secret i required granted : String) (k : APIKey)
    (hfind : ks.find? (fun p => p.snd.key_hash == h secret) = some (i, k))
    (hvalid : k.is_valid now = true)
    (hnotin : required ∉ k.permissions)
    (hin : granted ∈ k.permissions) :
    validate_api_key_with_permissions now true h ks secret required =
      .ok (none, alistSet ks i (k.update_usage now), []) ∧
    validate_api_key now true h ks secret =
      .ok (some (k.update_usage now),
        alistSet ks i (k.update_usage now), []) ∧
    validate_api_key_with_permissions now true h ks secret granted =
      .ok (some (k.update_usage now),
        alistSet ks i (k.update_usage now), []) := by
  have hv : validate_api_key now true h ks secret =
      .ok (some (k.update_usage now),
        alistSet ks i (k.update_usage now), []) := by
    simp [validate_api_key, hfind, hvalid]
  have hperm : (k.update_usage now).permissions = k.permissions := rfl
  refine ⟨?_, hv, ?_⟩
  · simp [validate_api_key_with_permissions, hv, hperm, hnotin]
  · simp [validate_api_key_with_permissions, hv, hperm, hin]

/-- C1 witness: a key with permissions exactly `{"generate"}`; requiring
"cache" yields the forbidden `none` while the credential validates, and
requiring "generate" is admitted. -/
theorem C1_permission_gate_witness :
    validate_api_key_with_permissions 7 true idHash
        [("kg", { key_id := "kg", key_hash := "sA", created_at := 0,
                  expires_at := none, last_used := none, usage_count := 0,
                  is_active := true, permissions := ["generate"],
                  name := none })] "sA" "cache" =
      .ok (none,
        alistSet
          [("kg", { key_id := "kg", key_hash := "sA", created_at := 0,
                    expires_at := none, last_used := none, usage_count := 0,
                    is_active := true, permissions := ["generate"],
                    name := none })] "kg"
          (APIKey.update_usage
            { key_id := "kg", key_hash := "sA", created_at := 0,
              expires_at := none, last_used := none, usage_count := 0,
              is_active := true, permissions := ["generate"],
              name := none } 7), []) ∧
    validate_api_key 7 true idHash
        [("kg", { key_id := "kg", key_hash := "sA", created_at := 0,
                  expires_at := none, last_used := none, usage_count := 0,
                  is_active := true, permissions := ["generate"],
                  name := none })] "sA" =
      .ok (some (APIKey.update_usage
          { key_id := "kg", key_hash := "sA", created_at := 0,
            expires_at := none, last_used := none, usage_count := 0,
            is_active := true, permissions := ["generate"],
            name := none } 7),
        alistSet
          [("kg", { key_id := "kg", key_hash := "sA", created_at := 0,
                    expires_at := none, last_used := none, usage_count := 0,
                    is_active := true, permissions := ["generate"],
                    name := none })] "kg"
          (APIKey.update_usage
            { key_id := "kg", key_hash := "sA", created_at := 0,
              expires_at := none, last_used := none, usage_count := 0,
              is_active := true, permissions := ["generate"],
              name := none } 7), []) ∧
    validate_api_key_with_permissions 7 true idHash
        [("kg", { key_id := "kg", key_hash := "sA", created_at := 0,
                  expires_at := none, last_used := none, usage_count := 0,
                  is_active := true, permissions := ["generate"],
                  name := none })] "sA" "generate" =
      .ok (some (APIKey.update_usage
          { key_id := "kg", key_hash := "sA", created_at := 0,
            expires_at := none, last_used := none, usage_count := 0,
            is_active := true, permissions := ["generate"],
            name := none } 7),
        alistSet
          [("kg", { key_id := "kg", key_hash := "sA", created_at := 0,
                    expires_at := none, last_used := none, usage_count := 0,
                    is_active := true, permissions := ["generate"],
                    name := none })] "kg"
          (APIKey.update_usage
            { key_id := "kg", key_hash := "sA", created_at := 0,
              expires_at := none, last_used := none, usage_count := 0,
              is_active := true, permissions := ["generate"],
              name := none } 7), []) := by
  exact C1_permission_gate 7 idHash _ "sA" "kg" "cache" "generate" _
    rfl rfl (by decide) (by decide)

/-- C9: revoking a stored key clears its active flag, returns `true` and
keeps the record in the store; every subsequent validation of that key's
secret returns the invalid/not-found outcome `none` (with the store
unchanged), even though the record is still present; revoking an unknown id
returns `false` and changes nothing. -/
theorem C9_revoke_then_invalid (h : String → String) (pre post : KeyStore)
    (kid secret : String) (k : APIKey)
    (hpre_id : ∀ p ∈ pre, (p.fst == kid) = false)
    (hpost_id : ∀ p ∈ post, (p.fst == kid) = false)
    (hpre_hash : ∀ p ∈ pre, (p.snd.key_hash == h secret) = false)
    (hhash : (k.key_hash == h secret) = true) :
    revoke_api_key true (pre ++ (kid, k) :: post) kid =
      .ok (true, pre ++ (kid, { k with is_active := false }) :: post,
        [SecEvent.api_key_revoked kid]) ∧
    alistGet? (pre ++ (kid, { k with is_active := false }) :: post) kid =
      some { k with is_active := false } ∧
    (∀ t saveOk, ∃ evs,
      validate_api_key t saveOk h
          (pre ++ (kid, { k with is_active := false }) :: post) secret =
        .ok (none,
          pre ++ (kid, { k with is_active := false }) :: post, evs)) ∧
    (∀ (ks : KeyStore) (j : String) (sOk : Bool), alistGet? ks j = none →
      revoke_api_key sOk ks j = .ok (false, ks, [])) := by
  refine ⟨?_, alistGet?_middle pre post kid _ hpre_id, ?_, ?_⟩
  · simp only [revoke_api_key, alistGet?_middle pre post kid k hpre_id,
      alistSet_middle pre post kid k _ hpre_id hpost_id, if_true]
  · intro t saveOk
    have hinact : ({ k with is_active := false } : APIKey).is_valid t
        = false := by
      simp [APIKey.is_valid]
    rw [validate_first_match t saveOk h pre post kid secret
      { k with is_active := false } hpre_hash hhash]
    cases hE : ({ k with is_active := false } : APIKey).is_expired t with
    | true =>
      refine ⟨[SecEvent.api_key_expired_used
        ({ k with is_active := false } : APIKey).key_id], ?_⟩
      simp [hinact, hE]
    | false =>
      refine ⟨[], ?_⟩
      simp [hinact, hE]
  · intro ks j sOk hnone
    simp [revoke_api_key, hnone]

/-- C9 witness: revoke the concrete one-key store's key, then validate its
secret; also revoke an unknown id in the empty store. -/
theorem C9_revoke_then_invalid_witness :
    revoke_api_key true [("k1", cKey)] "k1" =
      .ok (true, [("k1", { cKey with is_active := false })],
        [SecEvent.api_key_revoked "k1"]) ∧
    alistGet? [("k1", { cKey with is_active := false })] "k1" =
      some { cKey with is_active := false } ∧
    (∃ evs,
      validate_api_key 100 true idHash
          [("k1", { cKey with is_active := false })] "sek" =
        .ok (none, [("k1", { cKey with is_active := false })], evs)) ∧
    revoke_api_key true [] "zz" = .ok (false, [], []) := by
  have hmain := C9_revoke_then_invalid idHash [] [] "k1" "sek" cKey
    (by simp) (by simp) (by simp) rfl
  exact ⟨hmain.1, hmain.2.1, hmain.2.2.1 100 true,
    hmain.2.2.2 [] "zz" true rfl⟩

/-- C10: when the store already holds a valid key named "default",
`get_api_key_for_legacy_support` returns the freshly drawn random token
(which, having a hash matching no stored record, fails validation with
`none` — it is not any stored key's plaintext secret); only when no valid
"default" key exists does it issue a new 365-day "default" key and return
that key's genuine secret, which validation then accepts. -/
theorem C10_legacy_support (now : Int) (saveOk : Bool) (h : String → String)
    (freshToken freshSecret freshId : String) (ks ks₁ : KeyStore)
    (evs : List SecEvent) (rr : String × String) (k : APIKey) :
    (ks.any (fun p => p.snd.name == some "default" && p.snd.is_valid now)
        = true →
     (∀ p ∈ ks, (p.snd.key_hash == h freshToken) = false) →
     get_api_key_for_legacy_support now saveOk h freshToken freshSecret
        freshId ks = .ok (freshToken, ks, []) ∧
     validate_api_key now saveOk h ks freshToken = .ok (none, ks, [])) ∧
    (ks.any (fun p => p.snd.name == some "default" && p.snd.is_valid now)
        = false →
     (∀ p ∈ ks, (p.fst == freshId) = false) →
     (∀ p ∈ ks, (p.snd.key_hash == h freshSecret) = false) →
     generate_api_key now true h freshSecret freshId (some "default")
        (some 365) (some ["generate", "cache", "health"]) ks
        = .ok (rr, ks₁, evs) →
     alistGet? ks₁ freshId = some k →
     get_api_key_for_legacy_support now true h freshToken freshSecret
        freshId ks = .ok (freshSecret, ks₁, evs) ∧
     validate_api_key now true h ks₁ freshSecret =
       .ok (some (k.update_usage now),
         alistSet ks₁ freshId (k.update_usage now), [])) := by
  constructor
  · intro hdef hmiss
    constructor
    · simp [get_api_key_for_legacy_support, hdef]
    · exact validate_no_match now saveOk h ks freshToken hmiss
  · intro hnodef hfresh hnoclash hgen hlook
    obtain ⟨knew, hgen', hkid, hkh, -, -, -, hact, -, hexp, -⟩ :=
      generate_api_key_spec now h freshSecret freshId (some "default")
        (some 365) (some ["generate", "cache", "health"]) ks hfresh
    rw [hgen'] at hgen
    simp only [Except.ok.injEq, Prod.mk.injEq] at hgen
    obtain ⟨hrr, hks, hevs⟩ := hgen
    subst hks
    subst hevs
    rw [alistGet?_middle ks [] freshId knew hfresh] at hlook
    have hkeq : k = knew := by
      cases hlook
      rfl
    subst hkeq
    have hnexp : k.is_expired now = false := by
      simp only [APIKey.is_expired]
      rw [hexp]
      simp only [Int.reduceEq, decide_eq_false_iff_not]
      simp only [show ((365 : Int) == 0) = false by decide,
        Bool.false_eq_true, if_false, decide_eq_false_iff_not]
      omega
    have hvalid : k.is_valid now = true := by
      simp [APIKey.is_valid, hact, hnexp]
    constructor
    · simp only [get_api_key_for_legacy_support, hnodef,
        Bool.false_eq_true, if_false]
      rw [hgen']
    · rw [validate_first_match now true h ks [] freshId freshSecret k
        hnoclash (by simp [hkh])]
      simp [hvalid]

/-- C10 witness: with a valid "default" key present the returned token
fails validation; with an empty store the freshly issued "default" key's
secret validates. -/
theorem C10_legacy_support_witness :
    (get_api_key_for_legacy_support 50 true idHash "tok" "s10" "id10"
        [("kd", { key_id := "kd", key_hash := "sd", created_at := 0,
                  expires_at := none, last_used := none, usage_count := 0,
                  is_active := true,
                  permissions := ["generate", "cache", "health"],
                  name := some "default" })] =
      .ok ("tok",
        [("kd", { key_id := "kd", key_hash := "sd", created_at := 0,
                  expires_at := none, last_used := none, usage_count := 0,
                  is_active := true,
                  permissions := ["generate", "cache", "health"],
                  name := some "default" })], []) ∧
     validate_api_key 50 true idHash
        [("kd", { key_id := "kd", key_hash := "sd", created_at := 0,
                  expires_at := none, last_used := none, usage_count := 0,
                  is_active := true,
                  permissions := ["generate", "cache", "health"],
                  name := some "default" })] "tok" =
      .ok (none,
        [("kd", { key_id := "kd", key_hash := "sd", created_at := 0,
                  expires_at := none, last_used := none, usage_count := 0,
                  is_active := true,
                  permissions := ["generate", "cache", "health"],
                  name := some "default" })], [])) ∧
    (get_api_key_for_legacy_support 50 true idHash "tok" "s10" "id10" [] =
      .ok ("s10",
        [("id10", { key_id := "id10", key_hash := "s10", created_at := 50,
                    expires_at := some 31536050, last_used := none,
                    usage_count := 0, is_active := true,
                    permissions := ["generate", "cache", "health"],
                    name := some "default" })],
        [SecEvent.api_key_generated "id10"]) ∧
     validate_api_key 50 true idHash
        [("id10", { key_id := "id10", key_hash := "s10", created_at := 50,
                    expires_at := some 31536050, last_used := none,
                    usage_count := 0, is_active := true,
                    permissions := ["generate", "cache", "health"],
                    name := some "default" })] "s10" =
      .ok (some (APIKey.update_usage
          { key_id := "id10", key_hash := "s10", created_at := 50,
            expires_at := some 31536050, last_used := none,
            usage_count := 0, is_active := true,
            permissions := ["generate", "cache", "health"],
            name := some "default" } 50),
        alistSet
          [("id10", { key_id := "id10", key_hash := "s10",
                      created_at := 50, expires_at := some 31536050,
                      last_used := none, usage_count := 0,
                      is_active := true,
                      permissions := ["generate", "cache", "health"],
                      name := some "default" })] "id10"
          (APIKey.update_usage
            { key_id := "id10", key_hash := "s10", created_at := 50,
              expires_at := some 31536050, last_used := none,
              usage_count := 0, is_active := true,
              permissions := ["generate", "cache", "health"],
              name := some "default" } 50), [])) := by
  constructor
  · exact (C10_legacy_support 50 true idHash "tok" "s10" "id10"
      [("kd", { key_id := "kd", key_hash := "sd", created_at := 0,
                expires_at := none, last_used := none, usage_count := 0,
                is_active := true,
                permissions := ["generate", "cache", "health"],
                name := some "default" })] [] [] ("", "") cKey).1
      (by decide) (by decide)
  · exact (C10_legacy_support 50 true idHash "tok" "s10" "id10" []
      [("id10", { key_id := "id10", key_hash := "s10", created_at := 50,
                  expires_at := some 31536050, last_used := none,
                  usage_count := 0, is_active := true,
                  permissions := ["generate", "cache", "health"],
                  name := some "default" })]
      [SecEvent.api_key_generated "id10"] ("id10", "s10")
      { key_id := "id10", key_hash := "s10", created_at := 50,
        expires_at := some 31536050, last_used := none, usage_count := 0,
        is_active := true, permissions := ["generate", "cache", "health"],
        name := some "default" }).2
      rfl (by simp) (by simp) rfl rfl

/-- C2 counterexample: rotating the concrete key named "default" issues a
new key whose label is "default_rotated", not the old label "default" —
the claim that the new key's label equals the old key's label fails on this
input (the source suffixes `_rotated`). -/
theorem C2_counterexample :
    rotate_api_key 100 true idHash "s2" "k2" [("k1", cOld)] "k1" none =
      .ok (some ("k2", "s2"),
        [("k1", { cOld with expires_at := some 86500 }),
         ("k2", { key_id := "k2", key_hash := "s2", created_at := 100,
                  expires_at := none, last_used := none, usage_count := 0,
                  is_active := true, permissions := ["generate"],
                  name := some "default_rotated" })],
        [SecEvent.api_key_generated "k2",
         SecEvent.api_key_rotated "k1" "k2"]) ∧
    some "default_rotated" ≠ cOld.name := by
  constructor
  · rfl
  · simp [cOld]

/-- C2 amended: rotating a stored key (active, with a nonempty label and
nonempty permissions; fresh replacement id and secret) issues a new key
whose permissions equal the old key's and whose label is the old label
suffixed with "_rotated" (not the old label itself), and sets the old
record's expiry to now + 24h regardless of its previous expiry, so that
validating the old secret succeeds at every time up to the grace boundary
and fails with the expired event at every time strictly after it; rotating
an unknown id returns `none` and changes nothing. -/
theorem C2_rotate_amended (now : Int) (h : String → String)
    (pre post : KeyStore) (kid oldSecret freshSecret freshId : String)
    (k : APIKey) (d : Option Int) (nm : String)
    (hpre_id : ∀ p ∈ pre, (p.fst == kid) = false)
    (hpost_id : ∀ p ∈ post, (p.fst == kid) = false)
    (hfresh : ∀ p ∈ pre ++ (kid, k) :: post, (p.fst == freshId) = false)
    (hpre_hash : ∀ p ∈ pre, (p.snd.key_hash == h oldSecret) = false)
    (hhash : (k.key_hash == h oldSecret) = true)
    (hname : k.name = some nm) (hnmE : nm.isEmpty = false)
    (hpermsE : k.permissions.isEmpty = false)
    (hactive : k.is_active = true) :
    (∃ nk : APIKey,
      rotate_api_key now true h freshSecret freshId
          (pre ++ (kid, k) :: post) kid d =
        .ok (some (freshId, freshSecret),
          pre ++ (kid, { k with expires_at := some (now + 24 * 3600) })
            :: (post ++ [(freshId, nk)]),
          [SecEvent.api_key_generated freshId,
           SecEvent.api_key_rotated kid freshId]) ∧
      nk.permissions = k.permissions ∧
      nk.name = some (nm ++ "_rotated") ∧
      (∀ t : Int, t ≤ now + 24 * 3600 →
        ∃ rec ks₃, validate_api_key t true h
            (pre ++ (kid, { k with expires_at := some (now + 24 * 3600) })
              :: (post ++ [(freshId, nk)])) oldSecret =
          .ok (some rec, ks₃, []) ∧ rec.key_id = k.key_id) ∧
      (∀ (t : Int) (saveOk : Bool), now + 24 * 3600 < t →
        validate_api_key t saveOk h
            (pre ++ (kid, { k with expires_at := some (now + 24 * 3600) })
              :: (post ++ [(freshId, nk)])) oldSecret =
          .ok (none,
            pre ++ (kid, { k with expires_at := some (now + 24 * 3600) })
              :: (post ++ [(freshId, nk)]),
            [SecEvent.api_key_expired_used k.key_id]))) ∧
    (∀ (ks : KeyStore) (j : String) (sOk : Bool) (fs fid : String)
        (dd : Option Int), alistGet? ks j = none →
      rotate_api_key now sOk h fs fid ks j dd = .ok (none, ks, [])) := by
  have hget : alistGet? (pre ++ (kid, k) :: post) kid = some k :=
    alistGet?_middle pre post kid k hpre_id
  obtain ⟨knew, hgen', hkid, hkh, -, -, -, hact', hnm', -, hperm'⟩ :=
    generate_api_key_spec now h freshSecret freshId
      (some (nm ++ "_rotated")) d (some k.permissions)
      (pre ++ (kid, k) :: post) hfresh
  have hfk : (freshId == kid) = false := by
    have hk' := hfresh (kid, k) (by simp)
    rw [beq_eq_false_iff_ne] at hk' ⊢
    exact hk'.symm
  have hpost' : ∀ p ∈ post ++ [(freshId, knew)], (p.fst == kid) = false := by
    intro p hp
    rcases List.mem_append.mp hp with hp | hp
    · exact hpost_id p hp
    · simp only [List.mem_singleton] at hp
      subst hp
      exact hfk
  have hset : alistSet ((pre ++ (kid, k) :: post) ++ [(freshId, knew)]) kid
      { k with expires_at := some (now + 24 * 3600) } =
      pre ++ (kid, { k with expires_at := some (now + 24 * 3600) })
        :: (post ++ [(freshId, knew)]) := by
    rw [List.append_assoc]
    exact alistSet_middle pre (post ++ [(freshId, knew)]) kid k _
      hpre_id hpost'
  have hperm'' : knew.permissions = k.permissions := by
    rw [hperm']
    simp [hpermsE]
  refine ⟨⟨knew, ?_, hperm'', hnm', ?_, ?_⟩, ?_⟩
  · rw [hname] at hset
    simp [rotate_api_key, hget, hname, hnmE, hgen']
    simpa using hset
  · intro t ht
    have hnexp : ({ k with expires_at := some (now + 24 * 3600) } :
        APIKey).is_expired t = false := by
      simp only [APIKey.is_expired, decide_eq_false_iff_not]
      omega
    have hval : ({ k with expires_at := some (now + 24 * 3600) } :
        APIKey).is_valid t = true := by
      simp only [APIKey.is_valid]
      rw [hnexp]
      simp [hactive]
    refine ⟨APIKey.update_usage
        { k with expires_at := some (now + 24 * 3600) } t,
      alistSet
        (pre ++ (kid, { k with expires_at := some (now + 24 * 3600) })
          :: (post ++ [(freshId, knew)])) kid
        (APIKey.update_usage
          { k with expires_at := some (now + 24 * 3600) } t), ?_, rfl⟩
    rw [validate_first_match t true h pre (post ++ [(freshId, knew)]) kid
      oldSecret { k with expires_at := some (now + 24 * 3600) }
      hpre_hash hhash, if_pos hval, if_pos rfl]
  · intro t saveOk ht
    have hexp : ({ k with expires_at := some (now + 24 * 3600) } :
        APIKey).is_expired t = true := by
      simp only [APIKey.is_expired, decide_eq_true_eq]
      omega
    have hval : ({ k with expires_at := some (now + 24 * 3600) } :
        APIKey).is_valid t = false := by
      simp only [APIKey.is_valid]
      rw [hexp]
      simp
    rw [validate_first_match t saveOk h pre (post ++ [(freshId, knew)]) kid
      oldSecret { k with expires_at := some (now + 24 * 3600) }
      hpre_hash hhash, if_neg (by rw [hval]; simp), if_pos hexp]
  · intro ks j sOk fs fid dd hnone
    simp [rotate_api_key, hnone]

/-- C2 amended witness: rotating the concrete "default" key at time 100
with fresh id "k2" and secret "s2"; the old secret still validates at time
86000 (inside the 24h grace window) and is rejected as expired at time
90000 (after it); rotating an unknown id is a no-op. -/
theorem C2_rotate_amended_witness :
    rotate_api_key 100 true idHash "s2" "k2" [("k1", cOld)] "k1" none =
      .ok (some ("k2", "s2"),
        [("k1", { cOld with expires_at := some 86500 }),
         ("k2", { key_id := "k2", key_hash := "s2", created_at := 100,
                  expires_at := none, last_used := none, usage_count := 0,
                  is_active := true, permissions := ["generate"],
                  name := some "default_rotated" })],
        [SecEvent.api_key_generated "k2",
         SecEvent.api_key_rotated "k1" "k2"]) ∧
    (["generate"] : List String) = cOld.permissions ∧
    (some "default_rotated" : Option String) = some ("default" ++ "_rotated") ∧
    (∃ rec ks₃, validate_api_key 86000 true idHash
        [("k1", { cOld with expires_at := some 86500 }),
         ("k2", { key_id := "k2", key_hash := "s2", created_at := 100,
                  expires_at := none, last_used := none, usage_count := 0,
                  is_active := true, permissions := ["generate"],
                  name := some "default_rotated" })] "s1" =
      .ok (some rec, ks₃, []) ∧ rec.key_id = cOld.key_id) ∧
    validate_api_key 90000 false idHash
        [("k1", { cOld with expires_at := some 86500 }),
         ("k2", { key_id := "k2", key_hash := "s2", created_at := 100,
                  expires_at := none, last_used := none, usage_count := 0,
                  is_active := true, permissions := ["generate"],
                  name := some "default_rotated" })] "s1" =
      .ok (none,
        [("k1", { cOld with expires_at := some 86500 }),
         ("k2", { key_id := "k2", key_hash := "s2", created_at := 100,
                  expires_at := none, last_used := none, usage_count := 0,
                  is_active := true, permissions := ["generate"],
                  name := some "default_rotated" })],
        [SecEvent.api_key_expired_used cOld.key_id]) ∧
    rotate_api_key 100 true idHash "sx" "kx" [] "zz" none =
      .ok (none, [], []) := by
  have hmain := C2_rotate_amended 100 idHash [] [] "k1" "s1" "s2" "k2" cOld
    none "default" (by simp) (by simp) (by decide) (by simp) rfl rfl rfl
    rfl rfl
  obtain ⟨⟨nk, h1, h2, h3, h4, h5⟩, h6⟩ := hmain
  have heval : rotate_api_key 100 true idHash "s2" "k2"
      ([] ++ ("k1", cOld) :: []) "k1" none =
    Except.ok (some ("k2", "s2"),
      [] ++ ("k1", { cOld with expires_at := some (100 + 24 * 3600) })
        :: ([] ++ [("k2",
          { key_id := "k2", key_hash := "s2", created_at := 100,
            expires_at := none, last_used := none, usage_count := 0,
            is_active := true, permissions := ["generate"],
            name := some "default_rotated" })]),
      [SecEvent.api_key_generated "k2",
       SecEvent.api_key_rotated "k1" "k2"]) := rfl
  have hnk : nk = ({ key_id := "k2", key_hash := "s2", created_at := 100,
                     expires_at := none, last_used := none,
                     usage_count := 0, is_active := true,
                     permissions := ["generate"],
                     name := some "default_rotated" } : APIKey) := by
    have hcomb := h1.symm.trans heval
    simp only [Except.ok.injEq, Prod.mk.injEq, List.nil_append,
      List.cons.injEq, List.append_nil] at hcomb
    exact hcomb.2.1.2.1.2
  subst hnk
  exact ⟨h1, h2.symm, h3.symm, h4 86000 (by omega), h5 90000 false (by omega),
    h6 [] "zz" true "sx" "kx" none rfl⟩

/-- C6: outside the test environment, when a recorded failure brings the
count of failures within the trailing lockout window up to the configured
threshold, the client's lockout expiry is set to that instant plus
`lockout_duration`; the lockout check then answers `true` at every instant
strictly before the expiry, and `false` at every instant from the expiry on
— passively deleting the expired entry; in general the check answers `true`
iff a lockout entry is present and strictly in the future. (The source
keys this state by client IP; the spec's client fingerprint is the same
identifier role.) -/
theorem C6_lockout_dynamics (env : String) (cfg : AuthConfig) (t0 : Int)
    (ip ua : String) (m : SecurityMetrics)
    (henv : (env == "test") = false)
    (hcount : cfg.max_failed_attempts ≤
      (dequePush ((alistGet? m.failed_auth_attempts ip).getD [])
        (t0, ua.take 100)).countP
        (fun a => decide (t0 - a.fst < cfg.lockout_duration))) :
    alistGet? (record_failed_auth env cfg t0 ip ua m).blocked_ips ip =
      some (t0 + cfg.lockout_duration) ∧
    (∀ t : Int, t < t0 + cfg.lockout_duration →
      (is_ip_blocked env t ip (record_failed_auth env cfg t0 ip ua m)).fst
        = true) ∧
    (∀ t : Int, t0 + cfg.lockout_duration ≤ t →
      (is_ip_blocked env t ip (record_failed_auth env cfg t0 ip ua m)).fst
        = false ∧
      alistGet? (is_ip_blocked env t ip
          (record_failed_auth env cfg t0 ip ua m)).snd.blocked_ips ip
        = none) ∧
    (∀ (t : Int) (mm : SecurityMetrics),
      (is_ip_blocked env t ip mm).fst = true ↔
        ∃ e, alistGet? mm.blocked_ips ip = some e ∧ t < e) := by
  have hblk : alistGet? (record_failed_auth env cfg t0 ip ua m).blocked_ips
      ip = some (t0 + cfg.lockout_duration) := by
    simp only [record_failed_auth, henv, Bool.false_eq_true, if_false]
    rw [if_pos hcount]
    exact alistGet?_set_self _ _ _
  refine ⟨hblk, ?_, ?_, ?_⟩
  · intro t ht
    simp only [is_ip_blocked, henv, Bool.false_eq_true, if_false, hblk]
    simp [ht]
  · intro t ht
    simp only [is_ip_blocked, henv, Bool.false_eq_true, if_false, hblk]
    have hnlt : ¬(t < t0 + cfg.lockout_duration) := by omega
    simp only [hnlt, if_false]
    exact ⟨trivial, alistGet?_remove_self _ _⟩
  · intro t mm
    simp only [is_ip_blocked, henv, Bool.false_eq_true, if_false]
    cases halist : alistGet? mm.blocked_ips ip with
    | none => simp [halist]
    | some e =>
      simp only [halist]
      by_cases ht : t < e
      · simp [ht]
      · simp [ht]

/-- C6 witness: threshold 5 / lockout 900s in a production environment;
four earlier failures at times 0..3 and a fifth at time 10 set the lockout
to expire at 910; the check answers `true` at time 500, `false` at time
910 with the entry deleted, and the iff-characterization holds at a
concrete table. -/
theorem C6_lockout_dynamics_witness :
    alistGet? (record_failed_auth "production"
        { max_failed_attempts := 5, lockout_duration := 900 } 10 "f" "ua"
        { failed_auth_attempts :=
            [("f", [(0, "ua"), (1, "ua"), (2, "ua"), (3, "ua")])],
          blocked_ips := [], suspicious_ips := [] }).blocked_ips "f" =
      some 910 ∧
    (is_ip_blocked "production" 500 "f" (record_failed_auth "production"
        { max_failed_attempts := 5, lockout_duration := 900 } 10 "f" "ua"
        { failed_auth_attempts :=
            [("f", [(0, "ua"), (1, "ua"), (2, "ua"), (3, "ua")])],
          blocked_ips := [], suspicious_ips := [] })).fst = true ∧
    ((is_ip_blocked "production" 910 "f" (record_failed_auth "production"
        { max_failed_attempts := 5, lockout_duration := 900 } 10 "f" "ua"
        { failed_auth_attempts :=
            [("f", [(0, "ua"), (1, "ua"), (2, "ua"), (3, "ua")])],
          blocked_ips := [], suspicious_ips := [] })).fst = false ∧
      alistGet? (is_ip_blocked "production" 910 "f"
          (record_failed_auth "production"
            { max_failed_attempts := 5, lockout_duration := 900 } 10 "f"
            "ua"
            { failed_auth_attempts :=
                [("f", [(0, "ua"), (1, "ua"), (2, "ua"), (3, "ua")])],
              blocked_ips := [],
              suspicious_ips := [] })).snd.blocked_ips "f" = none) ∧
    ((is_ip_blocked "production" 7 "f"
        { failed_auth_attempts := [], blocked_ips := [("f", 9)],
          suspicious_ips := [] }).fst = true ↔
      ∃ e, alistGet? [("f", 9)] "f" = some e ∧ (7 : Int) < e) := by
  have hmain := C6_lockout_dynamics "production"
    { max_failed_attempts := 5, lockout_duration := 900 } 10 "f" "ua"
    { failed_auth_attempts :=
        [("f", [(0, "ua"), (1, "ua"), (2, "ua"), (3, "ua")])],
      blocked_ips := [], suspicious_ips := [] } rfl (by decide)
  exact ⟨hmain.1, hmain.2.1 500 (by decide), hmain.2.2.1 910 (by decide),
    hmain.2.2.2 7 { failed_auth_attempts := [],
                    blocked_ips := [("f", 9)],
                    suspicious_ips := [] }⟩
